import Mathlib

/-
Verification of the memoization policy implemented by the `cached`
proc-macro crate (src/cached_proc_macro/src/lib.rs).

The crate rewrites a function into a cache-backed wrapper.  The
definitions below are a shallow embedding of the RUNTIME code the macro
emits (the quote! blocks in `cached` and `once`) together with the
configuration validation the macro performs while expanding (the
pattern matches that abort expansion on invalid option combinations;
expansion-time aborts are modelled as `Except.error`, so an error value
means the configuration is rejected before any wrapped function exists).

Generated wrappers are modelled as explicit state passing: a call takes
the current cache contents and returns the produced value, the new cache
contents, and the number of invocations of the underlying function body
performed by that call (the computation counter of the spec).
All calls are sequential, matching the spec phrase about no intervening
mutation of shared state; lock acquisition is therefore a no-op in the
model.
-/

set_option autoImplicit false

namespace CachedProcMacro

variable {K V A E T : Type}

/-- Modelled from the spec: the cache backend interface for keyed caches.
The backend data structures (`UnboundCache` and friends, from the main
`cached` crate) are not under src; the spec only requires a key-value
store exposing `get(key) -> Option<Payload>` and `set(key, Payload)`.
We model the store as an association list where `cache_set` prepends and
`cache_get` returns the most recent binding. -/
abbrev Cache (K V : Type) := List (K × V)

/-- Modelled from the spec: backend lookup, `get(key) -> Option<Payload>`. -/
def cache_get [DecidableEq K] : Cache K V → K → Option V
  | [], _ => none
  | (k, v) :: rest, key => if k = key then some v else cache_get rest key

/-- Modelled from the spec: backend store, `set(key, Payload)`. -/
def cache_set (c : Cache K V) (key : K) (v : V) : Cache K V :=
  (key, v) :: c

/-- Modelled from the spec: the `cached::Return` wrapper (not under src)
that carries the hit marker `was_cached`; freshly constructed values
carry the default marker `false`. -/
structure Return (T : Type) where
  was_cached : Bool
  value : T
  deriving DecidableEq, Repr

/-- Wrapped call, Plain result shape, no hit flag (macro `cached`,
sync, default `sync_writes = false`): derive the key, check the cache,
on a hit return the stored clone without running the body, on a miss run
the body, store the result and return it. -/
def cachedCall [DecidableEq K] (keyOf : A → K) (f : A → V)
    (c : Cache K V) (x : A) : V × Cache K V × Nat :=
  let key := keyOf x
  match cache_get c key with
  | some result => (result, c, 0)
  | none =>
      let result := f x
      (result, cache_set c key result, 1)

/-- Wrapped call, Plain result shape with `with_cached_flag = true`:
the hit path clones the stored payload and sets `was_cached := true`;
the miss path stores and returns the freshly computed payload with its
marker untouched. -/
def cachedCallFlag [DecidableEq K] (keyOf : A → K) (f : A → Return T)
    (c : Cache K (Return T)) (x : A) : Return T × Cache K (Return T) × Nat :=
  let key := keyOf x
  match cache_get c key with
  | some result => ({ result with was_cached := true }, c, 0)
  | none =>
      let result := f x
      (result, cache_set c key result, 1)

/-- Wrapped call, `result = true` shape: the hit path rewraps the stored
payload in `Ok`; the miss path runs the body, stores only the `Ok`
branch, and passes the outcome through unchanged. -/
def cachedCallResult [DecidableEq K] (keyOf : A → K) (f : A → Except E V)
    (c : Cache K V) (x : A) : Except E V × Cache K V × Nat :=
  let key := keyOf x
  match cache_get c key with
  | some result => (Except.ok result, c, 0)
  | none =>
      let result := f x
      match result with
      | Except.ok r => (result, cache_set c key r, 1)
      | Except.error _ => (result, c, 1)

/-- Wrapped call, `result = true` shape with `with_cached_flag = true`:
the hit path sets the marker on the stored payload and rewraps it in
`Ok`. -/
def cachedCallResultFlag [DecidableEq K] (keyOf : A → K)
    (f : A → Except E (Return T)) (c : Cache K (Return T)) (x : A) :
    Except E (Return T) × Cache K (Return T) × Nat :=
  let key := keyOf x
  match cache_get c key with
  | some result => (Except.ok { result with was_cached := true }, c, 0)
  | none =>
      let result := f x
      match result with
      | Except.ok r => (result, cache_set c key r, 1)
      | Except.error _ => (result, c, 1)

/-- Wrapped call, `option = true` shape: the hit path rewraps the stored
payload in `Some`; the miss path stores only the `Some` branch and
passes the outcome through unchanged. -/
def cachedCallOption [DecidableEq K] (keyOf : A → K) (f : A → Option V)
    (c : Cache K V) (x : A) : Option V × Cache K V × Nat :=
  let key := keyOf x
  match cache_get c key with
  | some result => (some result, c, 0)
  | none =>
      let result := f x
      match result with
      | some r => (result, cache_set c key r, 1)
      | none => (result, c, 1)

/-- Priming entry point `f_prime_cache`, Plain result shape: no cache
read at all; run the body, store the result, return it. -/
def cachedPrime [DecidableEq K] (keyOf : A → K) (f : A → V)
    (c : Cache K V) (x : A) : V × Cache K V × Nat :=
  let key := keyOf x
  let result := f x
  (result, cache_set c key result, 1)

/-- Priming entry point, `result = true` shape: run the body, store only
the `Ok` branch, pass the outcome through. -/
def cachedPrimeResult [DecidableEq K] (keyOf : A → K) (f : A → Except E V)
    (c : Cache K V) (x : A) : Except E V × Cache K V × Nat :=
  let key := keyOf x
  let result := f x
  match result with
  | Except.ok r => (result, cache_set c key r, 1)
  | Except.error _ => (result, c, 1)

/-- Priming entry point, `option = true` shape: run the body, store only
the `Some` branch, pass the outcome through. -/
def cachedPrimeOption [DecidableEq K] (keyOf : A → K) (f : A → Option V)
    (c : Cache K V) (x : A) : Option V × Cache K V × Nat :=
  let key := keyOf x
  let result := f x
  match result with
  | some r => (result, cache_set c key r, 1)
  | none => (result, c, 1)

/-- Wrapped call produced by the `once` macro without `time`: the cache
is a single `Option` slot and the arguments play no part in the lookup;
a filled slot is returned as is, an empty slot causes one body run whose
result fills the slot. -/
def onceCall (f : A → V) (slot : Option V) (x : A) : V × Option V × Nat :=
  match slot with
  | some result => (result, slot, 0)
  | none =>
      let result := f x
      (result, some result, 1)

/-- Wrapped call produced by the `once` macro with `time = lifespan`:
the slot stores the creation instant next to the payload; on read the
entry is served only while `now.duration_since(created).as_secs() <
lifespan`, otherwise the body runs again and the slot is overwritten
with the new instant and payload.  Instants are modelled as whole
seconds, so the elapsed seconds of the source are `now - created`. -/
def onceCallTimed (lifespan : Nat) (f : A → V) (slot : Option (Nat × V))
    (now : Nat) (x : A) : V × Option (Nat × V) × Nat :=
  match slot with
  | some (created, result) =>
      if now - created < lifespan then (result, slot, 0)
      else
        let r := f x
        (r, some (now, r), 1)
  | none =>
      let r := f x
      (r, some (now, r), 1)

/-- Backend choice produced by expansion, one constructor per accepted
match arm of the cache-type selection in `cached`. -/
inductive CacheTy : Type where
  | UnboundCache : CacheTy
  | SizedCache (size : Nat) : CacheTy
  | TimedCache (time : Nat) (refresh : Bool) : CacheTy
  | TimedSizedCache (size time : Nat) (refresh : Bool) : CacheTy
  | CustomCache (ty create : String) : CacheTy
  deriving DecidableEq, Repr

/-- Message of the catch-all arm of the backend selection match. -/
def backendExclusiveMsg : String :=
  "cache types (unbound, size and/or time, or type and create) are mutually exclusive"

/-- Backend selection of the `cached` macro: the match over
`(unbound, size, time, type, create, time_refresh)`; the source arms
that abort expansion become `Except.error` with the abort message. -/
def backendSelect (unbound : Bool) (size time : Option Nat)
    (cache_type cache_create : Option String) (time_refresh : Bool) :
    Except String CacheTy :=
  match unbound, size, time, cache_type, cache_create, time_refresh with
  | true, none, none, none, none, _ => Except.ok CacheTy.UnboundCache
  | false, some n, none, none, none, _ => Except.ok (CacheTy.SizedCache n)
  | false, none, some t, none, none, r => Except.ok (CacheTy.TimedCache t r)
  | false, some n, some t, none, none, r =>
      Except.ok (CacheTy.TimedSizedCache n t r)
  | false, none, none, none, none, _ => Except.ok CacheTy.UnboundCache
  | false, none, none, some ty, some cr, _ =>
      Except.ok (CacheTy.CustomCache ty cr)
  | false, none, none, some _, none, _ =>
      Except.error "type requires create to also be set"
  | false, none, none, none, some _, _ =>
      Except.error "create requires type to also be set"
  | _, _, _, _, _, _ => Except.error backendExclusiveMsg

/-- Number of backend-selection families that a configuration engages:
the `unbound` flag, the `size` and/or `time` family, and the
`type`/`create` family. -/
def famCount (unbound : Bool) (size time : Option Nat)
    (cache_type cache_create : Option String) : Nat :=
  (if unbound then 1 else 0) +
    (if size.isSome || time.isSome then 1 else 0) +
    (if cache_type.isSome || cache_create.isSome then 1 else 0)

/-- Result shape produced by expansion from the `result` and `option`
flags. -/
inductive ResultShape : Type where
  | Plain : ResultShape
  | ResultWrapped : ResultShape
  | OptionWrapped : ResultShape
  deriving DecidableEq, Repr

/-- Result-shape selection of the `cached` and `once` macros: the match
over `(result, option)`; requesting both aborts expansion. -/
def resultShapeSelect (result option : Bool) : Except String ResultShape :=
  match result, option with
  | false, false => Except.ok ResultShape.Plain
  | true, true =>
      Except.error "the result and option attributes are mutually exclusive"
  | true, false => Except.ok ResultShape.ResultWrapped
  | false, true => Except.ok ResultShape.OptionWrapped

/-- List prefix test, used to model the substring test of Rust
`str::contains`. -/
def listStartsWith : List Char → List Char → Bool
  | [], _ => true
  | _ :: _, [] => false
  | a :: as, b :: bs => a == b && listStartsWith as bs

/-- List substring test: `pat` occurs contiguously inside the second
list. -/
def listHasSub (pat : List Char) : List Char → Bool
  | [] => pat.isEmpty
  | a :: rest => listStartsWith pat (a :: rest) || listHasSub pat rest

/-- String substring test, modelling Rust `s.contains(pat)`. -/
def strHasSub (s pat : String) : Bool :=
  listHasSub pat.toList s.toList

/-- Constant part of the rejection message emitted when
`with_cached_flag = true` is used with a return type that does not
mention `Return`. -/
def flagErrMsgPre : String :=
  "\nWhen specifying `with_cached_flag = true`, the return type must be wrapped in `cached::Return<T>`. \nThe following return types are supported: \n|    `cached::Return<T>`\n|    `std::result::Result<cachedReturn<T>, E>`\n|    `std::option::Option<cachedReturn<T>>`\nFound type: "

/-- Full rejection message, with the offending display type
interpolated as in the source format string. -/
def flagErrMsg (t : String) : String :=
  flagErrMsgPre ++ t ++ "."

/-- Return-type check guarding `with_cached_flag`: the macro rejects
when the flag is set and the identifier rendering of the return type
contains neither `Return` nor `cached::Return`. -/
def returnFlagCheck (with_cached_flag : Bool)
    (output_string output_type_display : String) : Except String Unit :=
  if with_cached_flag && !(strHasSub output_string "Return")
      && !(strHasSub output_string "cached::Return") then
    Except.error (flagErrMsg output_type_display)
  else
    Except.ok ()

end CachedProcMacro

namespace CachedProcMacro

variable {K V A E T : Type}

theorem cache_get_set_self [DecidableEq K] (c : Cache K V) (k : K) (v : V) :
    cache_get (cache_set c k v) k = some v := by
  simp [cache_set, cache_get]

theorem listHasSub_nil_pat (l : List Char) : listHasSub [] l = true := by
  cases l with
  | nil => rfl
  | cons a rest => simp [listHasSub, listStartsWith]

theorem listStartsWith_self_append (l t : List Char) :
    listStartsWith l (l ++ t) = true := by
  induction l with
  | nil => rfl
  | cons a as ih => simp [listStartsWith, ih]

theorem listStartsWith_append_right (pat l b : List Char)
    (h : listStartsWith pat l = true) : listStartsWith pat (l ++ b) = true := by
  induction pat generalizing l with
  | nil => rfl
  | cons p ps ih =>
      cases l with
      | nil => simp [listStartsWith] at h
      | cons a as =>
          simp [listStartsWith] at h ⊢
          exact ⟨h.1, ih as h.2⟩

theorem listHasSub_append_left (pat a b : List Char)
    (h : listHasSub pat a = true) : listHasSub pat (a ++ b) = true := by
  induction a with
  | nil =>
      have hp : pat = [] := by
        cases pat with
        | nil => rfl
        | cons q qs => simp [listHasSub] at h
      subst hp
      exact listHasSub_nil_pat b
  | cons c rest ih =>
      simp only [listHasSub, Bool.or_eq_true] at h ⊢
      rcases h with h | h
      · exact Or.inl (listStartsWith_append_right pat (c :: rest) b h)
      · exact Or.inr (ih h)

theorem listHasSub_sandwich (pat a b : List Char) :
    listHasSub pat (a ++ pat ++ b) = true := by
  induction a with
  | nil =>
      cases pat with
      | nil => simpa using listHasSub_nil_pat b
      | cons p ps =>
          simp only [List.nil_append, List.cons_append, listHasSub,
            Bool.or_eq_true]
          exact Or.inl (by simpa using listStartsWith_self_append (p :: ps) b)
  | cons c rest ih =>
      simp only [List.cons_append, listHasSub, Bool.or_eq_true]
      exact Or.inr (by simpa using ih)

theorem strHasSub_append_right (a b pat : String)
    (h : strHasSub a pat = true) : strHasSub (a ++ b) pat = true := by
  unfold strHasSub at h ⊢
  rw [show (a ++ b).toList = a.toList ++ b.toList by
    simp [String.toList, String.data_append]]
  exact listHasSub_append_left pat.toList a.toList b.toList h

end CachedProcMacro

namespace CachedProcMacro

variable {K V A E T : Type}

/-- C9: with no backend-selection knob set (unbound false, size, time,
type, create all absent) the `cached` configuration is accepted, for
either value of time_refresh, and the `UnboundCache` backend is the
default. -/
theorem default_backend_is_unbound :
    backendSelect false none none none none false
      = Except.ok CacheTy.UnboundCache ∧
    backendSelect false none none none none true
      = Except.ok CacheTy.UnboundCache :=
  ⟨rfl, rfl⟩

/-- C7: requesting the `result` and `option` shapes simultaneously is
rejected while expanding (a build-time ConfigurationError, before any
wrapped function exists), whereas each shape alone is accepted: the two
options are mutually exclusive. -/
theorem result_option_mutually_exclusive :
    resultShapeSelect true true
      = Except.error "the result and option attributes are mutually exclusive" ∧
    resultShapeSelect true false = Except.ok ResultShape.ResultWrapped ∧
    resultShapeSelect false true = Except.ok ResultShape.OptionWrapped :=
  ⟨rfl, rfl, rfl⟩

/-- C10: the `once` cache is a single slot whose lookup ignores the
arguments: an empty slot causes one body run and stores its value, and
once a value is stored every later call, with any argument whatsoever,
is served that stored value with zero body runs and an unchanged slot. -/
theorem once_ignores_arguments (f : A → V) (v : V) (x y : A) :
    onceCall f none x = (f x, some (f x), 1) ∧
    onceCall f (some v) y = (v, some v, 0) ∧
    onceCall f (onceCall f none x).2.1 y = (f x, some (f x), 0) :=
  ⟨rfl, rfl, rfl⟩

/-- C3: for the time-bounded `once` slot, a stored entry is served as a
hit exactly when the elapsed whole seconds since its creation instant
are strictly below the lifespan; once the elapsed seconds reach the
lifespan (ties included) the entry is expired, the body runs again and
the slot is overwritten with the fresh instant and value. -/
theorem once_ttl_boundary (lifespan : Nat) (f : A → V) (created now : Nat)
    (r : V) (x : A) :
    (now - created < lifespan →
      onceCallTimed lifespan f (some (created, r)) now x
        = (r, some (created, r), 0)) ∧
    (lifespan ≤ now - created →
      onceCallTimed lifespan f (some (created, r)) now x
        = (f x, some (now, f x), 1)) := by
  constructor
  · intro h
    simp [onceCallTimed, h]
  · intro h
    simp [onceCallTimed, Nat.not_lt.mpr h]

/-- Witness for C3 at lifespan 1: a read at elapsed 0 is a hit, a read
at elapsed exactly 1 (elapsed equal to the lifespan) recomputes. -/
theorem once_ttl_boundary_witness :
    onceCallTimed 1 (fun _ : Unit => 7) (some (0, 5)) 0 ()
      = (5, some (0, 5), 0) ∧
    onceCallTimed 1 (fun _ : Unit => 7) (some (0, 5)) 1 ()
      = (7, some (1, 7), 1) :=
  ⟨(once_ttl_boundary 1 (fun _ : Unit => 7) 0 0 5 ()).1 (by decide),
   (once_ttl_boundary 1 (fun _ : Unit => 7) 0 1 5 ()).2 (by decide)⟩

/-- C6: whenever two or more backend-selection families are engaged
(the unbound flag, the size and/or time family, the type/create family)
the `cached` configuration is rejected while expanding with the
mutual-exclusivity message, and that message names every family knob,
in particular both conflicting ones. -/
theorem backend_families_mutually_exclusive (unbound : Bool)
    (size time : Option Nat) (ctype ccreate : Option String) (tr : Bool)
    (h : 2 ≤ famCount unbound size time ctype ccreate) :
    backendSelect unbound size time ctype ccreate tr
      = Except.error backendExclusiveMsg ∧
    strHasSub backendExclusiveMsg "unbound" = true ∧
    strHasSub backendExclusiveMsg "size" = true ∧
    strHasSub backendExclusiveMsg "time" = true ∧
    strHasSub backendExclusiveMsg "type" = true ∧
    strHasSub backendExclusiveMsg "create" = true := by
  refine ⟨?_, by decide, by decide, by decide, by decide, by decide⟩
  cases unbound <;> rcases size with _ | n <;> rcases time with _ | t <;>
    rcases ctype with _ | ty <;> rcases ccreate with _ | cr <;>
      first
        | rfl
        | simp [famCount] at h

/-- Witness for C6: unbound together with size engages two families and
is rejected with the mutual-exclusivity message. -/
theorem backend_families_mutually_exclusive_witness :
    2 ≤ famCount true (some 1) none none none ∧
    backendSelect true (some 1) none none none false
      = Except.error backendExclusiveMsg :=
  ⟨by decide,
   (backend_families_mutually_exclusive true (some 1) none none none false
      (by decide)).1⟩

end CachedProcMacro

namespace CachedProcMacro

variable {K V A E T : Type}

/-- C1 counterexample: a wrapped function with Plain result shape (the
`result` and `option` attributes both unset) but `with_cached_flag`
enabled returns UNEQUAL outputs on two calls with equal arguments: the
second output carries `was_cached = true` while the first carries the
default marker. -/
theorem cached_flag_breaks_output_equality :
    (cachedCallFlag (fun n : Nat => n) (fun _ : Nat => Return.mk false 5)
        ((cachedCallFlag (fun n : Nat => n) (fun _ : Nat => Return.mk false 5)
            ([] : Cache Nat (Return Nat)) 0).2.1) 0).1
      ≠ (cachedCallFlag (fun n : Nat => n) (fun _ : Nat => Return.mk false 5)
          ([] : Cache Nat (Return Nat)) 0).1 := by
  decide

/-- C1 amended: with Plain result shape and `with_cached_flag` unset,
two calls with equal arguments yield equal outputs and the second call
performs zero body invocations; with `with_cached_flag` set the second
call still performs zero body invocations and its output carries the
same payload value, differing at most in the `was_cached` marker. -/
theorem cached_plain_second_call_cached [DecidableEq K] (keyOf : A → K)
    (f : A → V) (g : A → Return T) (c : Cache K V)
    (cg : Cache K (Return T)) (x : A) :
    ((cachedCall keyOf f (cachedCall keyOf f c x).2.1 x).1
        = (cachedCall keyOf f c x).1 ∧
      (cachedCall keyOf f (cachedCall keyOf f c x).2.1 x).2.2 = 0) ∧
    ((cachedCallFlag keyOf g (cachedCallFlag keyOf g cg x).2.1 x).1.value
        = (cachedCallFlag keyOf g cg x).1.value ∧
      (cachedCallFlag keyOf g (cachedCallFlag keyOf g cg x).2.1 x).2.2 = 0) := by
  constructor
  · rcases h : cache_get c (keyOf x) with _ | r
    · constructor <;> simp [cachedCall, h, cache_get_set_self]
    · constructor <;> simp [cachedCall, h]
  · rcases h : cache_get cg (keyOf x) with _ | r
    · constructor <;> simp [cachedCallFlag, h, cache_get_set_self]
    · constructor <;> simp [cachedCallFlag, h]

/-- C2: under the `result` shape an `Err` outcome is never stored and is
passed through unchanged, so repeating the failing call runs the body
again, while an `Ok` outcome is stored and replayed with zero body runs;
the same holds for the `option` shape with `None` and `Some`. -/
theorem result_option_negative_caching [DecidableEq K] (keyOf : A → K)
    (fr : A → Except E V) (fo : A → Option V) (c : Cache K V) (x y : A)
    (e : E) (v w : V)
    (hx : cache_get c (keyOf x) = none) (hy : cache_get c (keyOf y) = none)
    (hfx : fr x = Except.error e) (hfy : fr y = Except.ok v)
    (hox : fo x = none) (hoy : fo y = some w) :
    cachedCallResult keyOf fr c x = (Except.error e, c, 1) ∧
    cachedCallResult keyOf fr (cachedCallResult keyOf fr c x).2.1 x
      = (Except.error e, c, 1) ∧
    cachedCallResult keyOf fr c y
      = (Except.ok v, cache_set c (keyOf y) v, 1) ∧
    cachedCallResult keyOf fr (cache_set c (keyOf y) v) y
      = (Except.ok v, cache_set c (keyOf y) v, 0) ∧
    cachedCallOption keyOf fo c x = (none, c, 1) ∧
    cachedCallOption keyOf fo (cachedCallOption keyOf fo c x).2.1 x
      = (none, c, 1) ∧
    cachedCallOption keyOf fo c y
      = (some w, cache_set c (keyOf y) w, 1) ∧
    cachedCallOption keyOf fo (cache_set c (keyOf y) w) y
      = (some w, cache_set c (keyOf y) w, 0) := by
  refine ⟨?_, ?_, ?_, ?_, ?_, ?_, ?_, ?_⟩ <;>
    simp [cachedCallResult, cachedCallOption, hx, hy, hfx, hfy, hox, hoy,
      cache_get_set_self]

/-- Witness for C2: body failing at 0 and succeeding at 1, on the empty
cache; the failing call passes the error through, leaves the cache
empty and runs the body. -/
theorem result_option_negative_caching_witness :
    cachedCallResult (fun n : Nat => n)
        (fun n : Nat => if n = 0 then Except.error 9 else Except.ok 7)
        ([] : Cache Nat Nat) 0
      = (Except.error 9, [], 1) :=
  (result_option_negative_caching (fun n : Nat => n)
      (fun n : Nat => if n = 0 then Except.error 9 else Except.ok 7)
      (fun n : Nat => if n = 0 then none else some 8)
      [] 0 1 9 7 8 rfl rfl rfl rfl rfl rfl).1

end CachedProcMacro

namespace CachedProcMacro

variable {K V A E T : Type}

/-- C4 counterexample: under the `result` shape with a body that fails,
priming key 0 stores nothing, so the memoizing call that follows runs
the body again — a second computation for key 0, contrary to the claim
that the prime-then-call sequence never triggers one. -/
theorem prime_then_call_recomputes_on_error :
    (cachedCallResult (fun n : Nat => n)
        (fun _ : Nat => (Except.error 0 : Except Nat Nat))
        (cachedPrimeResult (fun n : Nat => n)
            (fun _ : Nat => (Except.error 0 : Except Nat Nat))
            ([] : Cache Nat Nat) 0).2.1 0).2.2 ≠ 0 := by
  decide

/-- C4 amended: the priming entry point never reads the cache: for every
shape it runs the body exactly once, returns the outcome unchanged,
stores it exactly under the eligibility rule of the memoizing entry
point (always for Plain, only `Ok`/`Some` for result/option) and
modifies nothing else; consequently, whenever the primed outcome is
storable, the memoizing call that follows performs zero body
invocations — while a failing or absent primed outcome leaves the cache
untouched and the follow-up call recomputes. -/
theorem prime_cache_semantics [DecidableEq K] (keyOf : A → K) (f : A → V)
    (fr : A → Except E V) (fo : A → Option V) (c : Cache K V) (x : A)
    (v w : V) (e : E) :
    cachedPrime keyOf f c x = (f x, cache_set c (keyOf x) (f x), 1) ∧
    cachedCall keyOf f (cachedPrime keyOf f c x).2.1 x
      = (f x, cache_set c (keyOf x) (f x), 0) ∧
    (cachedPrimeResult keyOf fr c x).1 = fr x ∧
    (cachedPrimeResult keyOf fr c x).2.2 = 1 ∧
    (fr x = Except.error e → (cachedPrimeResult keyOf fr c x).2.1 = c) ∧
    (fr x = Except.ok v →
      (cachedPrimeResult keyOf fr c x).2.1 = cache_set c (keyOf x) v ∧
      cachedCallResult keyOf fr (cachedPrimeResult keyOf fr c x).2.1 x
        = (Except.ok v, cache_set c (keyOf x) v, 0)) ∧
    (cachedPrimeOption keyOf fo c x).1 = fo x ∧
    (cachedPrimeOption keyOf fo c x).2.2 = 1 ∧
    (fo x = none → (cachedPrimeOption keyOf fo c x).2.1 = c) ∧
    (fo x = some w →
      (cachedPrimeOption keyOf fo c x).2.1 = cache_set c (keyOf x) w ∧
      cachedCallOption keyOf fo (cachedPrimeOption keyOf fo c x).2.1 x
        = (some w, cache_set c (keyOf x) w, 0)) := by
  refine ⟨rfl, ?_, ?_, ?_, ?_, ?_, ?_, ?_, ?_, ?_⟩
  · simp [cachedPrime, cachedCall, cache_get_set_self]
  · rcases h : fr x with e' | v' <;> simp [cachedPrimeResult, h]
  · rcases h : fr x with e' | v' <;> simp [cachedPrimeResult, h]
  · intro h
    simp [cachedPrimeResult, h]
  · intro h
    simp [cachedPrimeResult, cachedCallResult, h, cache_get_set_self]
  · rcases h : fo x with _ | v' <;> simp [cachedPrimeOption, h]
  · rcases h : fo x with _ | v' <;> simp [cachedPrimeOption, h]
  · intro h
    simp [cachedPrimeOption, h]
  · intro h
    simp [cachedPrimeOption, cachedCallOption, h, cache_get_set_self]

/-- Witness for C4 amended: priming a succeeding result body at key 0
stores the payload, and the memoizing call that follows is a hit with
zero body invocations. -/
theorem prime_cache_semantics_witness :
    cachedCallResult (fun n : Nat => n)
        (fun _ : Nat => (Except.ok 7 : Except Nat Nat))
        (cachedPrimeResult (fun n : Nat => n)
            (fun _ : Nat => (Except.ok 7 : Except Nat Nat))
            ([] : Cache Nat Nat) 0).2.1 0
      = (Except.ok 7, cache_set ([] : Cache Nat Nat) 0 7, 0) :=
  ((prime_cache_semantics (fun n : Nat => n) (fun _ : Nat => 3)
      (fun _ : Nat => (Except.ok 7 : Except Nat Nat))
      (fun _ : Nat => (some 8 : Option Nat)) [] 0 7 8
      9).2.2.2.2.2.1 rfl).2

end CachedProcMacro

namespace CachedProcMacro

variable {K V A E T : Type}

/-- C5: with `with_cached_flag` enabled, a cache hit returns the stored
payload cloned with `was_cached` set to true (rewrapped in `Ok` for the
result shape); a cache miss stores the fresh payload and returns it
with the marker still at its default false value; and the priming entry
point, which always computes fresh, never returns a marked result. -/
theorem with_cached_flag_semantics [DecidableEq K] (keyOf : A → K)
    (f : A → Return T) (g : A → Except E (Return T))
    (c : Cache K (Return T)) (x : A) (r : Return T)
    (hdef : (f x).was_cached = false) :
    (cache_get c (keyOf x) = some r →
      cachedCallFlag keyOf f c x = ({ r with was_cached := true }, c, 0)) ∧
    (cache_get c (keyOf x) = some r →
      cachedCallResultFlag keyOf g c x
        = (Except.ok { r with was_cached := true }, c, 0)) ∧
    (cache_get c (keyOf x) = none →
      cachedCallFlag keyOf f c x
        = (f x, cache_set c (keyOf x) (f x), 1) ∧
      (cachedCallFlag keyOf f c x).1.was_cached = false) ∧
    (cachedPrime keyOf f c x).1.was_cached = false := by
  refine ⟨?_, ?_, ?_, ?_⟩
  · intro h
    simp [cachedCallFlag, h]
  · intro h
    simp [cachedCallResultFlag, h]
  · intro h
    simp [cachedCallFlag, h, hdef]
  · simpa [cachedPrime] using hdef

/-- Witness for C5: a hit on a slot holding the payload 5 with the
default marker returns the payload with the marker set, at zero body
invocations, leaving the cache unchanged. -/
theorem with_cached_flag_semantics_witness :
    cachedCallFlag (fun n : Nat => n) (fun _ : Nat => Return.mk false 6)
        ([(0, Return.mk false 5)] : Cache Nat (Return Nat)) 0
      = (Return.mk true 5, [(0, Return.mk false 5)], 0) :=
  (with_cached_flag_semantics (fun n : Nat => n)
      (fun _ : Nat => Return.mk false 6)
      (fun _ : Nat => (Except.ok (Return.mk false 6) : Except Nat (Return Nat)))
      [(0, Return.mk false 5)] 0 (Return.mk false 5) rfl).1 rfl

set_option maxRecDepth 8192 in
/-- C8: when `with_cached_flag` is requested and the identifier
rendering of the declared return type mentions no `Return` wrapper,
expansion is rejected with a message that names the three supported
return-type shapes and the offending display type. -/
theorem flag_requires_taggable_return (out disp : String)
    (h1 : strHasSub out "Return" = false)
    (h2 : strHasSub out "cached::Return" = false) :
    returnFlagCheck true out disp = Except.error (flagErrMsg disp) ∧
    strHasSub (flagErrMsg disp) "cached::Return<T>" = true ∧
    strHasSub (flagErrMsg disp) "std::result::Result<cachedReturn<T>, E>" = true ∧
    strHasSub (flagErrMsg disp) "std::option::Option<cachedReturn<T>>" = true ∧
    strHasSub (flagErrMsg disp) disp = true := by
  refine ⟨?_, ?_, ?_, ?_, ?_⟩
  · simp [returnFlagCheck, h1, h2]
  · exact strHasSub_append_right (flagErrMsgPre ++ disp) "." _
      (strHasSub_append_right flagErrMsgPre disp _ (by decide))
  · exact strHasSub_append_right (flagErrMsgPre ++ disp) "." _
      (strHasSub_append_right flagErrMsgPre disp _ (by decide))
  · exact strHasSub_append_right (flagErrMsgPre ++ disp) "." _
      (strHasSub_append_right flagErrMsgPre disp _ (by decide))
  · show listHasSub disp.toList (flagErrMsgPre ++ disp ++ ".").toList = true
    rw [show (flagErrMsgPre ++ disp ++ ".").toList
          = (flagErrMsgPre.toList ++ disp.toList) ++ ".".toList by
        simp [String.toList, String.data_append]]
    exact listHasSub_sandwich disp.toList flagErrMsgPre.toList ".".toList

/-- Witness for C8: the return type `u32` mentions no `Return` wrapper,
so the flag request is rejected with the message naming the three
supported shapes and `u32` itself. -/
theorem flag_requires_taggable_return_witness :
    returnFlagCheck true "u32" "u32" = Except.error (flagErrMsg "u32") ∧
    strHasSub (flagErrMsg "u32") "u32" = true :=
  ⟨(flag_requires_taggable_return "u32" "u32" (by decide) (by decide)).1,
   (flag_requires_taggable_return "u32" "u32" (by decide) (by decide)).2.2.2.2⟩

end CachedProcMacro

namespace CachedProcMacro

/-- Witness for C1 amended: on a concrete Plain-shaped function the
second of two equal-argument calls performs zero body invocations. -/
theorem cached_plain_second_call_cached_witness :
    (cachedCall (fun n : Nat => n) (fun _ : Nat => 7)
        (cachedCall (fun n : Nat => n) (fun _ : Nat => 7)
            ([] : Cache Nat Nat) 0).2.1 0).2.2 = 0 :=
  (cached_plain_second_call_cached (fun n : Nat => n) (fun _ : Nat => 7)
      (fun _ : Nat => Return.mk false 5) []
      ([] : Cache Nat (Return Nat)) 0).1.2

/-- Witness for C10: a filled `once` slot serves its stored value for an
argument different from the one that filled it, with zero body runs. -/
theorem once_ignores_arguments_witness :
    onceCall (fun n : Nat => n + 1) (some 9) 3 = (9, some 9, 0) :=
  (once_ignores_arguments (fun n : Nat => n + 1) 9 2 3).2.1

end CachedProcMacro
